import Mathlib

/-!
Shallow embedding of the token-verification and session-trust subsystem of
the DocuLearn backend gateway (`app/core/security.py`, `app/api/deps.py`,
`app/api/routes/auth.py`, `app/api/routes/generation.py`,
`app/api/routes/rag.py`, `app/models/user.py`).

Modelling conventions:
* Machine state (the module-level JWKS cache) is passed explicitly as a
  `JwksState` value and returned updated.
* The network world is passed explicitly: the outcome of a would-be
  `requests.get` to the JWKS endpoint is a `FetchOutcome` argument; the
  downstream AI-service response is a `DownstreamResp` argument.
* Raised `fastapi.HTTPException`s become `Except.error` carrying an
  `HTTPError` (status code and detail string).  Python string formatting
  is mirrored by string concatenation; `str(HTTPException)` is Starlette's
  `"{status_code}: {detail}"`.
* Time is a `Nat` count of seconds (`datetime.utcnow()` becomes the `now`
  argument; `timedelta(hours=1)` becomes `3600`).
* JSON dictionaries become association lists over `String` keys; Python
  dict truthiness is non-emptiness of the list of fields.
-/

/-- JSON-ish value used for request/response payload fields. -/
inductive JsonVal where
  | str (s : String)
  | num (n : Int)
  | null
deriving DecidableEq, Repr

/-- A single JWK entry of the JWKS document: `jwk.get("kid")` plus the
public-key material (opaque to the gateway, only compared by the modelled
signature check). -/
structure Jwk where
  kid : Option String
  material : String
deriving DecidableEq, Repr

/-- The JWKS JSON object returned by `response.json()`: a top-level dict
whose `"keys"` field holds the JWK list.  Only list-of-JWK valued fields
occur in the flows modelled here, so the dict is an association list from
field name to JWK list. -/
structure Jwks where
  entries : List (String × List Jwk)
deriving DecidableEq, Repr

/-- Python truthiness of the `_jwks_cache` dict: a dict is truthy iff it
has at least one field. -/
def Jwks.isTruthy (j : Jwks) : Bool :=
  !j.entries.isEmpty

/-- Embeds `jwks.get("keys", [])`. -/
def Jwks.getKeys (j : Jwks) : List Jwk :=
  (j.entries.lookup "keys").getD []

/-- The module-level mutable cache of `app/core/security.py`:
`_jwks_cache` and `_jwks_cache_time`. -/
structure JwksState where
  cache : Option Jwks
  cacheTime : Option Nat
deriving DecidableEq, Repr

/-- Outcome of the `requests.get(jwks_url, timeout=10)` call together with
`raise_for_status` and `response.json()`: either a parsed JWKS document or
an exception message. -/
inductive FetchOutcome where
  | ok (j : Jwks)
  | err (msg : String)
deriving DecidableEq, Repr

/-- A raised `fastapi.HTTPException`: status code and detail string. -/
structure HTTPError where
  status : Nat
  detail : String
deriving DecidableEq, Repr

/-- Starlette's `str(HTTPException)`, i.e. `"{status_code}: {detail}"`. -/
def excStr (e : HTTPError) : String :=
  toString e.status ++ ": " ++ e.detail

/-- Value of `_CACHE_DURATION = timedelta(hours=1)` in seconds. -/
def CACHE_DURATION : Nat := 3600

/-- The guard of the early return in `get_jwks_keys`:
`if _jwks_cache and _jwks_cache_time and (now - _jwks_cache_time) < _CACHE_DURATION`.
`_jwks_cache` is tested by dict truthiness; a `datetime` is always truthy,
so `_jwks_cache_time` is only tested against `None`. -/
def jwks_cache_valid (st : JwksState) (now : Nat) : Bool :=
  match st.cache, st.cacheTime with
  | some c, some t => c.isTruthy && decide (now - t < CACHE_DURATION)
  | _, _ => false

/-- Embeds `get_jwks_keys` of `app/core/security.py`.  Returns the result
(the JWKS document, or the raised `HTTPException(500, ...)` on fetch
failure), the updated cache state, and whether an outbound network fetch
was attempted. -/
def get_jwks_keys (st : JwksState) (now : Nat) (fetch : FetchOutcome) :
    Except HTTPError Jwks × JwksState × Bool :=
  if jwks_cache_valid st now then
    (.ok ((st.cache).getD ⟨[]⟩), st, false)
  else
    match fetch with
    | .ok j => (.ok j, ⟨some j, some now⟩, true)
    | .err msg =>
        (.error ⟨500, "Failed to fetch JWKS keys: " ++ msg⟩, st, true)

example :
    get_jwks_keys ⟨some ⟨[("keys", [⟨some "k1", "m1"⟩])]⟩, some 0⟩ 10 (.err "boom")
      = (.ok ⟨[("keys", [⟨some "k1", "m1"⟩])]⟩, ⟨some ⟨[("keys", [⟨some "k1", "m1"⟩])]⟩, some 0⟩, false) := by
  rfl

/-- The fields of `app/core/config.py` `Settings` used by the verification
and forwarding flows. -/
structure Settings where
  COGNITO_REGION : String
  COGNITO_USER_POOL_ID : String
  COGNITO_CLIENT_ID : String
  ALGORITHM : String
  COOKIE_NAME : String
  GENERATION_SERVICE_URL : String
  RAG_SERVICE_URL : String
deriving DecidableEq, Repr

/-- The expected issuer string built in `verify_token` and
`decode_id_token`:
`https://cognito-idp.{region}.amazonaws.com/{pool_id}`. -/
def cognito_issuer (cfg : Settings) : String :=
  "https://cognito-idp." ++ cfg.COGNITO_REGION ++ ".amazonaws.com/" ++ cfg.COGNITO_USER_POOL_ID

/-- The JWT claim set carried in a token payload.  `iat`, `sub` and
`jti` validation in `jose.jwt._validate_claims` only type-checks values
that are well-typed by construction here, so those checks are vacuous in
the model and those fields are omitted.  `nbf` validation, by contrast,
is a real time comparison (`_validate_nbf` raises when `nbf` lies in the
future), so the `nbf` claim is carried here. -/
structure Claims where
  sub : Option String
  email : Option String
  name : Option String
  nbf : Option Nat
  exp : Option Nat
  aud : Option String
  iss : Option String
  at_hash : Option String
deriving DecidableEq, Repr

/-- A JWT as the verifier sees it.  `parseOk` is whether the compact
serialization splits into decodable header/payload segments; `kid` and
`alg` are the header fields; `sig` abstracts the signature: the
cryptographic check of `jose.jws.verify` succeeds under key `k` iff
`sig = k.material` (the signature was produced with the private
counterpart of exactly that key and the token was not altered after
signing). -/
structure Token where
  parseOk : Bool
  kid : Option String
  alg : String
  sig : String
  claims : Claims
deriving DecidableEq, Repr

/-- Embeds `jose.jwt.decode(token, key, algorithms=[alg], audience=aud,
issuer=iss, options={verify_signature/exp/aud/iss: True})` with the
remaining jose defaults (leeway 0, `verify_nbf` and `verify_at_hash`
True, no `access_token` argument).  jose's order: parse, algorithm
allow-list, signature, then `_validate_claims` in the order iat, nbf,
exp, aud, iss, sub, jti, at_hash — so the not-before time check runs
before the expiry check.  Errors carry jose's exception messages.  Note
two jose behaviours mirrored faithfully: a missing `exp` claim passes
the expiry check, and a missing `aud` claim passes the audience check
even though an expected audience was supplied. -/
def jose_jwt_decode (tok : Token) (key : Jwk) (alg aud iss : String) (now : Nat) :
    Except String Claims :=
  if tok.parseOk = false then .error "Not enough segments"
  else if tok.alg ≠ alg then .error "The specified alg value is not allowed"
  else if tok.sig ≠ key.material then .error "Signature verification failed."
  else if tok.claims.nbf.any (fun n => decide (now < n)) then
    .error "The token is not yet valid (nbf)"
  else if tok.claims.exp.any (fun e => decide (e < now)) then
    .error "Signature has expired."
  else if tok.claims.aud.any (fun a => a != aud) then
    .error "Invalid audience"
  else if tok.claims.iss ≠ some iss then .error "Invalid issuer"
  else if tok.claims.at_hash.isSome then
    .error "No access_token provided to compare against at_hash claim."
  else .ok tok.claims

/-- Embeds `verify_token` of `app/core/security.py`.  The whole body runs
inside one `try`; `except JWTError` maps jose errors to
`401 Invalid token: {msg}`, and the blanket `except Exception` also
catches the `HTTPException`s raised inside the `try` (the 500 from
`get_jwks_keys`, the missing-kid 401 and the no-matching-key 401),
re-raising them as `401 Token verification failed: {str(e)}`. -/
def verify_token (cfg : Settings) (st : JwksState) (now : Nat) (fetch : FetchOutcome)
    (tok : Token) : Except HTTPError Claims × JwksState :=
  match get_jwks_keys st now fetch with
  | (.error e, st2, _) =>
      (.error ⟨401, "Token verification failed: " ++ excStr e⟩, st2)
  | (.ok jwks, st2, _) =>
      if tok.parseOk = false then
        (.error ⟨401, "Invalid token: Error decoding token headers."⟩, st2)
      else
        match tok.kid with
        | none =>
            (.error ⟨401, "Token verification failed: "
              ++ excStr ⟨401, "Token header missing \x27kid\x27 field"⟩⟩, st2)
        | some kid =>
            match jwks.getKeys.find? (fun k => k.kid == some kid) with
            | none =>
                (.error ⟨401, "Token verification failed: "
                  ++ excStr ⟨401, "Unable to find matching key for token"⟩⟩, st2)
            | some key =>
                match jose_jwt_decode tok key cfg.ALGORITHM cfg.COGNITO_CLIENT_ID
                    (cognito_issuer cfg) now with
                | .error m => (.error ⟨401, "Invalid token: " ++ m⟩, st2)
                | .ok payload => (.ok payload, st2)

/-- Embeds `decode_id_token` of `app/core/security.py`.  Identical
pipeline to `verify_token` (same key lookup, same `jwt.decode` call with
the same algorithm, audience, issuer and options), but the error
handling differs: only `except JWTError` exists, so the `HTTPException`s
raised inside the `try` (including the 500 from `get_jwks_keys`)
propagate unwrapped, and jose errors map to `401 Invalid ID token: {msg}`. -/
def decode_id_token (cfg : Settings) (st : JwksState) (now : Nat) (fetch : FetchOutcome)
    (tok : Token) : Except HTTPError Claims × JwksState :=
  match get_jwks_keys st now fetch with
  | (.error e, st2, _) => (.error e, st2)
  | (.ok jwks, st2, _) =>
      if tok.parseOk = false then
        (.error ⟨401, "Invalid ID token: Error decoding token headers."⟩, st2)
      else
        match tok.kid with
        | none =>
            (.error ⟨401, "ID token header missing \x27kid\x27 field"⟩, st2)
        | some kid =>
            match jwks.getKeys.find? (fun k => k.kid == some kid) with
            | none =>
                (.error ⟨401, "Unable to find matching key for ID token"⟩, st2)
            | some key =>
                match jose_jwt_decode tok key cfg.ALGORITHM cfg.COGNITO_CLIENT_ID
                    (cognito_issuer cfg) now with
                | .error m => (.error ⟨401, "Invalid ID token: " ++ m⟩, st2)
                | .ok payload => (.ok payload, st2)

/-- A row of the `users` table (`app/models/user.py`).  The random
`uuid4` primary key is modelled as a `Nat` drawn from the database's
fresh-id counter. -/
structure User where
  id : Nat
  email : String
  cognito_sub : String
  full_name : String
deriving DecidableEq, Repr

/-- The user-storage collaborator: the rows plus the fresh-id source. -/
structure DB where
  users : List User
  nextId : Nat
deriving DecidableEq, Repr

/-- Database-level failure of a commit. -/
inductive DbError where
  | uniqueViolation
deriving DecidableEq, Repr

/-- Embeds `db.add(user); db.commit()` against the `users` table, whose
`email` and `cognito_sub` columns each carry a UNIQUE constraint
(`app/models/user.py`, migration `001_create_users.py`): the commit
fails with a uniqueness violation iff a stored row already holds the
same `cognito_sub` or the same `email`. -/
def db_insert_user (db : DB) (sub email name : String) : Except DbError (User × DB) :=
  if db.users.any (fun u => u.cognito_sub == sub || u.email == email) then
    .error .uniqueViolation
  else
    let u : User := ⟨db.nextId, email, sub, name⟩
    .ok (u, ⟨db.users ++ [u], db.nextId + 1⟩)

/-- Embeds the JIT-provisioning step of `callback` in
`app/api/routes/auth.py` (the lookup by `cognito_sub` followed by
`db.add`/`db.commit` when absent).  `concurrent` models the rows other
transactions commit between this transaction's read and its write, so
the race window of a concurrent first login is explicit.  Returns the
result (the source has no handler around the commit, so a constraint
violation propagates as an error), the database afterwards, and the
number of insert attempts performed. -/
def callback_jit (db : DB) (concurrent : List User) (sub email name : String) :
    Except DbError User × DB × Nat :=
  match db.users.find? (fun u => u.cognito_sub == sub) with
  | some u => (.ok u, db, 0)
  | none =>
      let db1 : DB := ⟨db.users ++ concurrent, db.nextId + concurrent.length⟩
      match db_insert_user db1 sub email name with
      | .error e => (.error e, db1, 1)
      | .ok (u, db2) => (.ok u, db2, 1)

/-- An inbound HTTP request as the protected routes see it: the cookie
jar and the JSON body (`none` when `await request.json()` raises). -/
structure Request where
  cookies : List (String × String)
  jsonBody : Option (List (String × JsonVal))
deriving DecidableEq, Repr

/-- Observable side effects of handling a protected request, in order:
a call into `verify_token`, a database query for the user, and an
outbound forward of a payload to a downstream service URL. -/
inductive GwAction where
  | verifyCall
  | dbQuery
  | forward (url : String) (body : List (String × JsonVal))
deriving DecidableEq, Repr

/-- Embeds `get_current_user` of `app/api/deps.py`.  The cookie is read
with `request.cookies.get(settings.COOKIE_NAME)`; `if not token` treats
both an absent cookie and an empty-string cookie as missing.  The
`except HTTPException: raise` around `verify_token` passes its error
through unchanged (the `except Exception` arm is unreachable because
`verify_token` only raises `HTTPException`).  `if not cognito_sub`
likewise treats an absent and an empty `sub` claim alike.  `tokOf`
gives the parse of a cookie string as a structured token.  The returned
action list records which effects ran. -/
def get_current_user (cfg : Settings) (st : JwksState) (now : Nat)
    (fetch : FetchOutcome) (tokOf : String → Token) (req : Request) (db : DB) :
    Except HTTPError User × JwksState × List GwAction :=
  match req.cookies.lookup cfg.COOKIE_NAME with
  | none => (.error ⟨401, "Not authenticated. Missing access token cookie."⟩, st, [])
  | some tokenStr =>
      if tokenStr = "" then
        (.error ⟨401, "Not authenticated. Missing access token cookie."⟩, st, [])
      else
        match verify_token cfg st now fetch (tokOf tokenStr) with
        | (.error e, st2) => (.error e, st2, [.verifyCall])
        | (.ok payload, st2) =>
            if payload.sub.getD "" = "" then
              (.error ⟨401, "Token payload missing \x27sub\x27 claim"⟩, st2, [.verifyCall])
            else
              match db.users.find? (fun u => u.cognito_sub == payload.sub.getD "") with
              | none =>
                  (.error ⟨401, "User not found in database"⟩, st2, [.verifyCall, .dbQuery])
              | some u => (.ok u, st2, [.verifyCall, .dbQuery])

/-- Python dict assignment `d[k] = v` on a parsed JSON object (keys
unique): replace the value in place if the key exists, else append the
binding at the end. -/
def dict_set : List (String × JsonVal) → String → JsonVal → List (String × JsonVal)
  | [], k, v => [(k, v)]
  | (a, w) :: rest, k, v =>
      if a == k then (a, v) :: rest else (a, w) :: dict_set rest k v

/-- Outcome of the `httpx` POST to a downstream AI service: a JSON
response body on 2xx, a non-2xx status with error text, or a transport
failure (timeout, connection error) with its message. -/
inductive DownstreamResp where
  | ok (body : List (String × JsonVal))
  | httpErr (code : Nat) (text : String)
  | unreachable (msg : String)
deriving DecidableEq, Repr

/-- Embeds `create_plan` of `app/api/routes/generation.py`.  The
`current_user` dependency runs first; a failing dependency short-circuits
the handler, so no body parsing or forward happens.  On success the body
(`{}` when unparseable) gets `body["user_id"] = str(current_user.id)`
and is POSTed to `{GENERATION_SERVICE_URL}/create_plan`; non-2xx
downstream statuses pass through with their code, transport failures
become 503. -/
def create_plan (cfg : Settings) (st : JwksState) (now : Nat) (fetch : FetchOutcome)
    (tokOf : String → Token) (req : Request) (db : DB) (downstream : DownstreamResp) :
    Except HTTPError (List (String × JsonVal)) × JwksState × List GwAction :=
  match get_current_user cfg st now fetch tokOf req db with
  | (.error e, st2, tr) => (.error e, st2, tr)
  | (.ok u, st2, tr) =>
      let body := req.jsonBody.getD []
      let body2 := dict_set body "user_id" (.str (toString u.id))
      let url := cfg.GENERATION_SERVICE_URL ++ "/create_plan"
      match downstream with
      | .ok js => (.ok js, st2, tr ++ [.forward url body2])
      | .httpErr code text =>
          (.error ⟨code, "Generation service error: " ++ text⟩, st2, tr ++ [.forward url body2])
      | .unreachable msg =>
          (.error ⟨503, "Failed to communicate with generation service: " ++ msg⟩, st2,
            tr ++ [.forward url body2])

/-- Embeds `query_rag` of `app/api/routes/rag.py`.  `request_data` is the
JSON body FastAPI parsed for the `Dict[str, Any]` parameter; the handler
sets `request_data["user_id"] = str(current_user.id)` and POSTs it to
`{RAG_SERVICE_URL}/query`, with the same downstream error translation as
`create_plan` but RAG-service wording. -/
def query_rag (cfg : Settings) (st : JwksState) (now : Nat) (fetch : FetchOutcome)
    (tokOf : String → Token) (request_data : List (String × JsonVal)) (req : Request)
    (db : DB) (downstream : DownstreamResp) :
    Except HTTPError (List (String × JsonVal)) × JwksState × List GwAction :=
  match get_current_user cfg st now fetch tokOf req db with
  | (.error e, st2, tr) => (.error e, st2, tr)
  | (.ok u, st2, tr) =>
      let body2 := dict_set request_data "user_id" (.str (toString u.id))
      let url := cfg.RAG_SERVICE_URL ++ "/query"
      match downstream with
      | .ok js => (.ok js, st2, tr ++ [.forward url body2])
      | .httpErr code text =>
          (.error ⟨code, "RAG service error: " ++ text⟩, st2, tr ++ [.forward url body2])
      | .unreachable msg =>
          (.error ⟨503, "Failed to communicate with RAG service: " ++ msg⟩, st2,
            tr ++ [.forward url body2])

/-! ### Concrete configuration and token fixtures used in closed theorems -/

/-- A concrete deployment configuration. -/
def cfg0 : Settings :=
  ⟨"r", "p", "cid", "RS256", "access_token", "http://gen", "http://rag"⟩

/-- A concrete signing key with key identifier `k1`. -/
def key1 : Jwk := ⟨some "k1", "m1"⟩

/-- A JWKS document holding exactly `key1`. -/
def jwksA : Jwks := ⟨[("keys", [key1])]⟩

/-- A cache state holding `jwksA`, fetched at time 0 (fresh at time 100). -/
def stFresh : JwksState := ⟨some jwksA, some 0⟩

/-- A claim set that passes every check of `jose_jwt_decode` against
`cfg0` at time 100. -/
def claimsOk : Claims :=
  ⟨some "u-1", some "a@x.com", some "A", none, some 200, some "cid",
    some (cognito_issuer cfg0), none⟩

/-- A token that `verify_token` accepts under `cfg0`/`stFresh` at time 100. -/
def tokGood : Token := ⟨true, some "k1", "RS256", "m1", claimsOk⟩

/-- `tokGood` with its expiry in the past (50 < 100). -/
def tokExpired : Token := { tokGood with claims := { claimsOk with exp := some 50 } }

/-- `tokExpired` whose signature does not verify under `key1`. -/
def tokExpiredBadSig : Token := { tokExpired with sig := "ALTERED" }

/-- A signature-valid token that is past its expiry (50 < 100) but also
carries a not-before claim in the future (100 < 150). -/
def tokFutureNbf : Token :=
  { tokGood with claims := { claimsOk with nbf := some 150, exp := some 50 } }

/-- `tokGood` with a key identifier absent from `jwksA`. -/
def tokUnknownKid : Token := { tokGood with kid := some "k2" }

/-- Cookie-string parsing environment for the fixtures: the cookie value
`tA` denotes the expired token, everything else the good token. -/
def tokOf0 : String → Token := fun s => if s = "tA" then tokExpired else tokGood

example : verify_token cfg0 stFresh 100 (.ok jwksA) tokGood = (.ok claimsOk, stFresh) := by
  rfl

/-! ### C1 — stale-cache fallback on fetch failure -/

/-- C1 counterexample.  A cached key set exists (fetched at time 0, so
older than the one-hour TTL at time 7200) and the remote fetch fails,
yet `get_jwks_keys` raises the 500 `Failed to fetch JWKS keys` error
instead of returning the previously cached set: the claimed stale-cache
fallback does not exist in the code. -/
theorem C1_counterexample :
    get_jwks_keys ⟨some jwksA, some 0⟩ 7200 (.err "connection error")
      = (.error ⟨500, "Failed to fetch JWKS keys: connection error"⟩,
          ⟨some jwksA, some 0⟩, true) := by
  rfl

/-- C1 (amended): whenever the cached key set is unusable by the guard
(absent, empty, or at least as old as the one-hour TTL) and the remote
fetch fails, `get_jwks_keys` fails with the 500 `Failed to fetch JWKS
keys` error and leaves the cache state unchanged — the previously cached
set, even when one exists, is never returned as a stale fallback; a
cached set is only ever returned while the guard holds. -/
theorem C1_no_stale_fallback (st : JwksState) (now : Nat) (msg : String)
    (h : jwks_cache_valid st now = false) :
    get_jwks_keys st now (.err msg)
      = (.error ⟨500, "Failed to fetch JWKS keys: " ++ msg⟩, st, true) := by
  unfold get_jwks_keys
  simp [h]

/-- Witness for `C1_no_stale_fallback` at a concrete stale state. -/
theorem C1_witness :
    get_jwks_keys ⟨some jwksA, some 0⟩ 7200 (.err "boom")
      = (.error ⟨500, "Failed to fetch JWKS keys: boom"⟩, ⟨some jwksA, some 0⟩, true) :=
  C1_no_stale_fallback ⟨some jwksA, some 0⟩ 7200 "boom" (by decide)

/-! ### C8 — fresh cache hit -/

/-- C8 counterexample.  The cached value is the empty JSON object `{}`
with a last-fetch timestamp 10 seconds old — younger than the TTL — yet
because `if _jwks_cache` tests dict truthiness, the empty cached set is
treated as absent: a network fetch is performed, the cache state is
replaced, and the fetched set (different from the cached one) is
returned. -/
theorem C8_counterexample :
    (get_jwks_keys ⟨some ⟨[]⟩, some 10⟩ 20 (.ok jwksA)
        = (.ok jwksA, ⟨some jwksA, some 20⟩, true))
    ∧ 20 - 10 < CACHE_DURATION
    ∧ jwksA ≠ ⟨[]⟩ := by
  refine ⟨rfl, by decide, by decide⟩

/-- C8 (amended): when the cached set is truthy (a non-empty JSON
object) and its last-fetch timestamp is younger than the one-hour TTL,
`get_jwks_keys` returns the cached set unchanged, performs no network
fetch, and leaves the cache state unmodified.  An empty cached object is
the one exception: it is treated as absent and refetched. -/
theorem C8_fresh_cache_hit (st : JwksState) (now : Nat) (fetch : FetchOutcome)
    (c : Jwks) (t : Nat) (hc : st.cache = some c) (ht : st.cacheTime = some t)
    (htr : c.isTruthy = true) (hfresh : now - t < CACHE_DURATION) :
    get_jwks_keys st now fetch = (.ok c, st, false) := by
  unfold get_jwks_keys jwks_cache_valid
  rw [hc, ht]
  simp [hc, htr, hfresh]

/-- Witness for `C8_fresh_cache_hit` at a concrete fresh state. -/
theorem C8_witness :
    get_jwks_keys stFresh 100 (.err "down") = (.ok jwksA, stFresh, false) :=
  C8_fresh_cache_hit stFresh 100 (.err "down") jwksA 0 rfl rfl (by decide) (by decide)

/-! ### C3 — unknown signing key -/

/-- C3: a token whose `kid` (`k2`) is absent from the key set reaches the
`Unable to find matching key for token` `HTTPException`, but the blanket
`except Exception` of `verify_token` catches that very exception and
re-raises it wrapped in the generic `Token verification failed: {str(e)}`
class — the caller receives the generic wrapper, not the specific
unknown-key failure the code's inner `raise` (and the spec) intended. -/
theorem C3_unknown_kid_wrapped_generic :
    verify_token cfg0 stFresh 100 (.ok jwksA) tokUnknownKid
      = (.error ⟨401,
          "Token verification failed: 401: Unable to find matching key for token"⟩,
         stFresh) := by
  rfl

/-! ### C4 — expiry vs signature ordering -/

/-- C4 counterexample.  Two refutations of "fails with Expired
regardless of signature validity".  First, `tokExpiredBadSig` is past
its expiry (`exp = 50 < now = 100`) but its signature does not verify;
`jose.jwt.decode` checks the signature before any claim, so the failure
is `Signature verification failed.`.  Second, even with a valid
signature the expiry failure is not guaranteed: `tokFutureNbf` is past
its expiry too, but its not-before claim lies in the future and
`_validate_nbf` runs before the expiry check, so the failure is
`The token is not yet valid (nbf)`. -/
theorem C4_counterexample :
    (verify_token cfg0 stFresh 100 (.ok jwksA) tokExpiredBadSig
        = (.error ⟨401, "Invalid token: Signature verification failed."⟩, stFresh))
    ∧ tokExpiredBadSig.claims.exp = some 50 ∧ 50 < 100
    ∧ (verify_token cfg0 stFresh 100 (.ok jwksA) tokFutureNbf
        = (.error ⟨401, "Invalid token: The token is not yet valid (nbf)"⟩, stFresh))
    ∧ tokFutureNbf.claims.exp = some 50 ∧ tokFutureNbf.sig = key1.material := by
  refine ⟨rfl, rfl, by decide, rfl, rfl, rfl⟩

/-- C4 (amended): for every token that reaches the claims-validation
stage (key set available, token parseable, `kid` found, allowed
algorithm), whose signature is valid, and whose not-before claim — if
present — is not in the future, a past expiry claim makes verification
fail with the expiry failure (`401 Invalid token: Signature has
expired.`).  When the signature is invalid the signature failure is
reported instead (signature verification precedes claim validation), and
when the not-before claim lies in the future the nbf failure is reported
instead (`_validate_nbf` precedes the expiry check). -/
theorem C4_expired_with_valid_sig (cfg : Settings) (st st2 : JwksState) (now : Nat)
    (fetch : FetchOutcome) (tok : Token) (jwks : Jwks) (b : Bool) (kid : String)
    (key : Jwk) (e : Nat)
    (hj : get_jwks_keys st now fetch = (.ok jwks, st2, b))
    (hp : tok.parseOk = true) (hk : tok.kid = some kid)
    (hfind : jwks.getKeys.find? (fun k => k.kid == some kid) = some key)
    (halg : tok.alg = cfg.ALGORITHM) (hsig : tok.sig = key.material)
    (hnbf : tok.claims.nbf.any (fun n => decide (now < n)) = false)
    (hexp : tok.claims.exp = some e) (hlt : e < now) :
    verify_token cfg st now fetch tok
      = (.error ⟨401, "Invalid token: Signature has expired."⟩, st2) := by
  unfold verify_token
  rw [hj]
  simp [hp, hk, hfind, jose_jwt_decode, halg, hsig, hnbf, hexp, hlt]

/-- Witness for `C4_expired_with_valid_sig` at a concrete expired token
with a valid signature and no not-before claim. -/
theorem C4_witness :
    verify_token cfg0 stFresh 100 (.ok jwksA) tokExpired
      = (.error ⟨401, "Invalid token: Signature has expired."⟩, stFresh) :=
  C4_expired_with_valid_sig cfg0 stFresh stFresh 100 (.ok jwksA) tokExpired jwksA
    false "k1" key1 50 rfl rfl rfl rfl rfl rfl rfl rfl (by decide)

/-! ### C7 — decode_id_token applies the same checks as verify_token -/

/-- C7: `decode_id_token` and `verify_token` run the identical pipeline —
same key-set retrieval, same `kid` lookup, same `jwt.decode` call with
the same algorithm, audience, issuer and options — so on every input
they accept exactly the same tokens, produce the same payload on
success, and leave the same cache state; they differ only in the error
values reported on failing tokens. -/
theorem C7_decode_verify_equiv (cfg : Settings) (st : JwksState) (now : Nat)
    (fetch : FetchOutcome) (tok : Token) :
    (decode_id_token cfg st now fetch tok).1.toOption
        = (verify_token cfg st now fetch tok).1.toOption
    ∧ (decode_id_token cfg st now fetch tok).2
        = (verify_token cfg st now fetch tok).2 := by
  unfold decode_id_token verify_token
  rcases hgk : get_jwks_keys st now fetch with ⟨r, st2, b⟩
  cases r with
  | error e => simp [Except.toOption]
  | ok jwks =>
      cases hp : tok.parseOk with
      | false => simp [Except.toOption]
      | true =>
          cases hk : tok.kid with
          | none => simp [Except.toOption]
          | some kid =>
              cases hf : jwks.getKeys.find? (fun k => k.kid == some kid) with
              | none => simp [hf, Except.toOption]
              | some key =>
                  cases hd : jose_jwt_decode tok key cfg.ALGORITHM
                      cfg.COGNITO_CLIENT_ID (cognito_issuer cfg) now with
                  | error m => simp [hf, hd, Except.toOption]
                  | ok p => simp [hf, hd, Except.toOption]

/-! ### C2 — boundary error classing -/

/-- Every error `verify_token` raises carries HTTP status 401: the
blanket handlers re-class even the internal 500 from `get_jwks_keys` as
a 401. -/
theorem verify_token_error_401 (cfg : Settings) (st st2 : JwksState) (now : Nat)
    (fetch : FetchOutcome) (tok : Token) (e : HTTPError)
    (h : verify_token cfg st now fetch tok = (.error e, st2)) : e.status = 401 := by
  unfold verify_token at h
  repeat' split at h
  all_goals simp only [Prod.mk.injEq, Except.error.injEq, reduceCtorEq,
    false_and] at h
  all_goals first
    | exact h.elim
    | (rw [← h.1])

/-- C2 counterexample.  Two protected requests failing different checks
receive different response bodies: an expired token yields detail
`Invalid token: Signature has expired.` while an unknown user yields
detail `User not found in database` — the body does identify which check
failed, refuting "never contains the internal verification-failure
detail". -/
theorem C2_counterexample :
    ((get_current_user cfg0 stFresh 100 (.ok jwksA) tokOf0
          ⟨[("access_token", "tA")], none⟩ ⟨[⟨7, "a@x.com", "u-1", "A"⟩], 8⟩).1
        = .error ⟨401, "Invalid token: Signature has expired."⟩)
    ∧ ((get_current_user cfg0 stFresh 100 (.ok jwksA) tokOf0
          ⟨[("access_token", "tB")], none⟩ ⟨[], 0⟩).1
        = .error ⟨401, "User not found in database"⟩)
    ∧ ("Invalid token: Signature has expired." : String)
        ≠ "User not found in database" := by
  refine ⟨rfl, rfl, by decide⟩

/-- C2 (amended): every failure of `get_current_user` — missing cookie,
any token-verification failure, missing subject claim, or unknown user —
is surfaced to the caller with the single HTTP status 401; the response
detail string, however, carries the specific failure message of the
check that failed rather than a fixed generic body. -/
theorem C2_single_status_class (cfg : Settings) (st st2 : JwksState) (now : Nat)
    (fetch : FetchOutcome) (tokOf : String → Token) (req : Request) (db : DB)
    (e : HTTPError) (tr : List GwAction)
    (h : get_current_user cfg st now fetch tokOf req db = (.error e, st2, tr)) :
    e.status = 401 := by
  unfold get_current_user at h
  split at h
  · simp only [Prod.mk.injEq, Except.error.injEq] at h
    rw [← h.1]
  · split at h
    · simp only [Prod.mk.injEq, Except.error.injEq] at h
      rw [← h.1]
    · split at h
      · rename_i e2 st3 heq
        simp only [Prod.mk.injEq, Except.error.injEq] at h
        rw [← h.1]
        exact verify_token_error_401 cfg st st3 now fetch _ e2 heq
      · split at h
        · simp only [Prod.mk.injEq, Except.error.injEq] at h
          rw [← h.1]
        · split at h
          · simp only [Prod.mk.injEq, Except.error.injEq] at h
            rw [← h.1]
          · simp only [Prod.mk.injEq, Except.error.injEq, reduceCtorEq,
              false_and] at h

/-- Witness for `C2_single_status_class` at a concrete failing request. -/
theorem C2_witness :
    (⟨401, "User not found in database"⟩ : HTTPError).status = 401 :=
  C2_single_status_class cfg0 stFresh stFresh 100 (.ok jwksA) tokOf0
    ⟨[("access_token", "tB")], none⟩ ⟨[], 0⟩ ⟨401, "User not found in database"⟩
    [.verifyCall, .dbQuery] rfl

/-! ### C5 — constraint violation during JIT provisioning -/

/-- C5 counterexample.  The subject is absent at lookup time, a
concurrent login commits the row before our commit, and the insert hits
the uniqueness constraint: `callback_jit` surfaces the violation as an
error even though the existing record is present and a re-read (second
conjunct) would find it — the claimed re-read-and-return recovery does
not exist in the code. -/
theorem C5_counterexample :
    ((callback_jit ⟨[], 0⟩ [⟨0, "a@x.com", "u-1", "A"⟩] "u-1" "a@x.com" "A").1
        = .error .uniqueViolation)
    ∧ (([] : List User) ++ ([⟨0, "a@x.com", "u-1", "A"⟩] : List User)).find?
        (fun u => u.cognito_sub == "u-1") = some ⟨0, "a@x.com", "u-1", "A"⟩ := by
  refine ⟨rfl, rfl⟩

/-- C5 (amended): whenever the subject is not found at lookup time and
the insert then violates a uniqueness constraint (because rows committed
concurrently hold the same subject or email), the callback surfaces the
uniqueness-violation error to the caller; it performs no re-read of the
existing record. -/
theorem C5_violation_propagates (db : DB) (concurrent : List User)
    (sub email name : String)
    (hmiss : db.users.find? (fun u => u.cognito_sub == sub) = none)
    (hviol : (db.users ++ concurrent).any
        (fun u => u.cognito_sub == sub || u.email == email) = true) :
    (callback_jit db concurrent sub email name).1 = .error .uniqueViolation := by
  unfold callback_jit db_insert_user
  rw [hmiss]
  simp [hviol]

/-- Witness for `C5_violation_propagates`: a concurrent login committed
the same subject between our lookup and our commit. -/
theorem C5_witness :
    (callback_jit ⟨[], 0⟩ [⟨0, "b@x.com", "u-1", "B"⟩] "u-1" "a@x.com" "A").1
      = .error .uniqueViolation :=
  C5_violation_propagates ⟨[], 0⟩ [⟨0, "b@x.com", "u-1", "B"⟩] "u-1" "a@x.com" "A"
    rfl rfl

/-! ### C6 — sequential idempotence of subject resolution -/

/-- Helper: a failed search skips over the first list of an append. -/
theorem find?_append_of_none {α : Type} (p : α → Bool) (l1 l2 : List α)
    (h : l1.find? p = none) : (l1 ++ l2).find? p = l2.find? p := by
  induction l1 with
  | nil => rfl
  | cons a t ih =>
      cases hpa : p a with
      | true =>
          rw [List.find?_cons_of_pos _ hpa] at h
          cases h
      | false =>
          rw [List.find?_cons_of_neg _ (by simp [hpa])] at h
          rw [List.cons_append, List.find?_cons_of_neg _ (by simp [hpa])]
          exact ih h

/-- Helper: first resolution of a fresh subject (fresh email too)
inserts exactly one row and returns it. -/
theorem callback_jit_fresh (db : DB) (sub email name : String)
    (hfind : db.users.find? (fun u => u.cognito_sub == sub) = none)
    (hnoclash : db.users.any
        (fun u => u.cognito_sub == sub || u.email == email) = false) :
    callback_jit db [] sub email name
      = (.ok ⟨db.nextId, email, sub, name⟩,
          ⟨db.users ++ [⟨db.nextId, email, sub, name⟩], db.nextId + 1⟩, 1) := by
  unfold callback_jit db_insert_user
  rw [hfind]
  simp [hnoclash]

/-- Helper: resolution of an already-provisioned subject returns the
stored row unchanged and inserts nothing. -/
theorem callback_jit_found (db : DB) (sub email name : String) (u : User)
    (hfind : db.users.find? (fun x => x.cognito_sub == sub) = some u) :
    callback_jit db [] sub email name = (.ok u, db, 0) := by
  unfold callback_jit
  rw [hfind]

/-- C6 counterexample.  A state where no User exists for subject `u-1`
but another User already holds the email `a@x.com`: the first resolution
does not return a User at all — the insert fails with the uniqueness
violation on email — so resolving twice does not return the same id
twice with one insert, refuting the claim over the states it quantifies
over. -/
theorem C6_counterexample :
    (∀ u ∈ ({ users := [⟨0, "a@x.com", "other", "O"⟩], nextId := 1 } : DB).users,
        u.cognito_sub ≠ "u-1")
    ∧ (callback_jit ⟨[⟨0, "a@x.com", "other", "O"⟩], 1⟩ [] "u-1" "a@x.com" "A").1
        = .error .uniqueViolation := by
  refine ⟨by decide, rfl⟩

/-- C6 (amended): starting from a state where no User exists for the
subject and no existing User holds the claims' email either, resolving
the subject twice in sequence returns the same User (hence the same id)
both times, performs exactly one insert (one on the first resolution,
zero on the second), and the second resolution returns the stored record
with the database unchanged. -/
theorem C6_sequential_idempotent (db : DB) (sub email name : String)
    (hsub : ∀ u ∈ db.users, u.cognito_sub ≠ sub)
    (hemail : ∀ u ∈ db.users, u.email ≠ email) :
    ∃ u : User,
      (callback_jit db [] sub email name).1 = .ok u
      ∧ (callback_jit db [] sub email name).2.2 = 1
      ∧ callback_jit (callback_jit db [] sub email name).2.1 [] sub email name
          = (.ok u, (callback_jit db [] sub email name).2.1, 0) := by
  have hfind : db.users.find? (fun u => u.cognito_sub == sub) = none := by
    rw [List.find?_eq_none]
    intro x hx
    simp [hsub x hx]
  have hnoclash : db.users.any
      (fun u => u.cognito_sub == sub || u.email == email) = false := by
    rw [List.any_eq_false]
    intro x hx
    simp [hsub x hx, hemail x hx]
  have h1 := callback_jit_fresh db sub email name hfind hnoclash
  refine ⟨⟨db.nextId, email, sub, name⟩, by rw [h1], by rw [h1], ?_⟩
  rw [h1]
  apply callback_jit_found
  rw [find?_append_of_none _ _ _ hfind]
  simp

/-- Witness for `C6_sequential_idempotent` from the empty database. -/
theorem C6_witness :
    ∃ u : User,
      (callback_jit ⟨[], 0⟩ [] "u-1" "a@x.com" "A").1 = .ok u
      ∧ (callback_jit ⟨[], 0⟩ [] "u-1" "a@x.com" "A").2.2 = 1
      ∧ callback_jit (callback_jit ⟨[], 0⟩ [] "u-1" "a@x.com" "A").2.1 []
            "u-1" "a@x.com" "A"
          = (.ok u, (callback_jit ⟨[], 0⟩ [] "u-1" "a@x.com" "A").2.1, 0) :=
  C6_sequential_idempotent ⟨[], 0⟩ "u-1" "a@x.com" "A" (by simp) (by simp)

/-! ### C9 — missing session cookie short-circuits -/

/-- C9: a protected call whose cookie jar has no session cookie fails at
once with the 401 `Not authenticated` error: `get_current_user` returns
before any effect runs (empty action trace — no `verify_token` call, no
database query), and the `create_plan` handler built on it performs no
downstream forward. -/
theorem C9_no_cookie_short_circuit (cfg : Settings) (st : JwksState) (now : Nat)
    (fetch : FetchOutcome) (tokOf : String → Token) (req : Request) (db : DB)
    (downstream : DownstreamResp)
    (h : req.cookies.lookup cfg.COOKIE_NAME = none) :
    get_current_user cfg st now fetch tokOf req db
      = (.error ⟨401, "Not authenticated. Missing access token cookie."⟩, st, [])
    ∧ create_plan cfg st now fetch tokOf req db downstream
      = (.error ⟨401, "Not authenticated. Missing access token cookie."⟩, st, []) := by
  have h1 : get_current_user cfg st now fetch tokOf req db
      = (.error ⟨401, "Not authenticated. Missing access token cookie."⟩, st, []) := by
    unfold get_current_user
    rw [h]
  refine ⟨h1, ?_⟩
  unfold create_plan
  rw [h1]

/-- Witness for `C9_no_cookie_short_circuit` at a concrete cookie-less
request. -/
theorem C9_witness :
    get_current_user cfg0 stFresh 100 (.ok jwksA) tokOf0 ⟨[], none⟩ ⟨[], 0⟩
      = (.error ⟨401, "Not authenticated. Missing access token cookie."⟩, stFresh, [])
    ∧ create_plan cfg0 stFresh 100 (.ok jwksA) tokOf0 ⟨[], none⟩ ⟨[], 0⟩ (.ok [])
      = (.error ⟨401, "Not authenticated. Missing access token cookie."⟩, stFresh, []) :=
  C9_no_cookie_short_circuit cfg0 stFresh 100 (.ok jwksA) tokOf0 ⟨[], none⟩ ⟨[], 0⟩
    (.ok []) rfl

/-! ### C10 — user_id injection overrides the client -/

/-- Helper: the trace of `get_current_user` never contains a forward. -/
theorem gcu_trace_no_forward (cfg : Settings) (st : JwksState) (now : Nat)
    (fetch : FetchOutcome) (tokOf : String → Token) (req : Request) (db : DB)
    (url : String) (body : List (String × JsonVal)) :
    GwAction.forward url body ∉ (get_current_user cfg st now fetch tokOf req db).2.2 := by
  unfold get_current_user
  repeat' split
  all_goals simp

/-- Helper: lookup after Python-style dict assignment. -/
theorem dict_set_lookup (d : List (String × JsonVal)) (k : String) (v : JsonVal) :
    (dict_set d k v).lookup k = some v := by
  induction d with
  | nil => simp [dict_set, List.lookup]
  | cons p rest ih =>
      obtain ⟨a, w⟩ := p
      by_cases hak : a = k
      · subst hak
        simp [dict_set, List.lookup]
      · have hak2 : (a == k) = false := by simp [hak]
        have hka : (k == a) = false := by simp [Ne.symm hak]
        simp [dict_set, List.lookup, hak2, hka, ih]

/-- Helper: a forward found in `tr0 ++ [forward url0 injected-body]`
but not in `tr0` carries the injected body, whose `user_id` is the
authenticated id. -/
theorem forward_body_from_trace (u : User) (url url0 : String)
    (body base : List (String × JsonVal)) (tr0 : List GwAction)
    (hnotin : GwAction.forward url body ∉ tr0)
    (hmem : GwAction.forward url body
        ∈ tr0 ++ [GwAction.forward url0
            (dict_set base "user_id" (JsonVal.str (toString u.id)))]) :
    body.lookup "user_id" = some (JsonVal.str (toString u.id)) := by
  rcases List.mem_append.mp hmem with hin | hin
  · exact absurd hin hnotin
  · rw [List.mem_singleton] at hin
    injection hin with h1 h2
    rw [h2]
    exact dict_set_lookup base "user_id" _

/-- C10: on every authenticated forward emitted by `create_plan` or
`query_rag`, the outbound payload's `user_id` field equals the
authenticated user's id — the handler overwrites whatever `user_id` the
client supplied in its body, so a client-chosen `user_id` never reaches
the downstream service. -/
theorem C10_user_id_injection (cfg : Settings) (st st2 : JwksState) (now : Nat)
    (fetch : FetchOutcome) (tokOf : String → Token) (req : Request) (db : DB)
    (downstream : DownstreamResp) (request_data : List (String × JsonVal))
    (u : User) (tr : List GwAction)
    (hu : get_current_user cfg st now fetch tokOf req db = (.ok u, st2, tr)) :
    (∀ url body, GwAction.forward url body
        ∈ (create_plan cfg st now fetch tokOf req db downstream).2.2 →
        body.lookup "user_id" = some (JsonVal.str (toString u.id)))
    ∧ (∀ url body, GwAction.forward url body
        ∈ (query_rag cfg st now fetch tokOf request_data req db downstream).2.2 →
        body.lookup "user_id" = some (JsonVal.str (toString u.id))) := by
  have htr : ∀ url body, GwAction.forward url body ∉ tr := by
    intro url body
    have hh := gcu_trace_no_forward cfg st now fetch tokOf req db url body
    rw [hu] at hh
    exact hh
  constructor
  · intro url body hmem
    unfold create_plan at hmem
    rw [hu] at hmem
    cases downstream <;>
      exact forward_body_from_trace u url _ body _ tr (htr url body) hmem
  · intro url body hmem
    unfold query_rag at hmem
    rw [hu] at hmem
    cases downstream <;>
      exact forward_body_from_trace u url _ body _ tr (htr url body) hmem

/-- Witness for `C10_user_id_injection`: the client supplied
`user_id = "999"` but the forwarded body carries the authenticated id 7. -/
theorem C10_witness :
    (dict_set [("user_id", JsonVal.str "999")] "user_id"
        (JsonVal.str (toString (7 : Nat)))).lookup "user_id"
      = some (JsonVal.str (toString (7 : Nat))) :=
  (C10_user_id_injection cfg0 stFresh stFresh 100 (.ok jwksA) tokOf0
      ⟨[("access_token", "tB")], some [("user_id", JsonVal.str "999")]⟩
      ⟨[⟨7, "a@x.com", "u-1", "A"⟩], 8⟩ (.ok []) [] ⟨7, "a@x.com", "u-1", "A"⟩
      [.verifyCall, .dbQuery] rfl).1
    (cfg0.GENERATION_SERVICE_URL ++ "/create_plan")
    (dict_set [("user_id", JsonVal.str "999")] "user_id"
      (JsonVal.str (toString (7 : Nat))))
    (by decide)
